import Mathlib

/-!
# adopdog-API: the dog resource service (`src/adopdog-API/index.js`)

A shallow embedding of the five Express route handlers of `index.js` and of the
`dogSchema` they persist through, followed by theorems about the responses they
produce.

The handlers talk to two library objects that are not part of the repository:
`mongoose.Types.ObjectId.isValid` and the model `Dog`.  Both are parameters of
the embedded handlers: `isValid : String → Bool` and `Dog : Model σ`, where `σ`
is the state of whatever store stands behind the model.  An awaited store call
either yields a value or throws, and may change the store; every awaited call is
recorded in a log so that "no store access" can be stated.
`console.error` and `console.log` only write to the process log and are left out.
-/

namespace AdopDog

/-! ## JSON values, requests and responses -/

/-- JSON values as they travel in request and response bodies.  Numbers are
integers here; no handler computes with them. -/
inductive Json where
  | null
  | bool (b : Bool)
  | num (n : Int)
  | str (s : String)
  | arr (items : List Json)
  | obj (fields : List (String × Json))

/-- First value stored under key `k` in a list of object members. -/
def lookupKey (k : String) : List (String × Json) → Option Json
  | [] => none
  | (k', v) :: rest => if k' = k then some v else lookupKey k rest

/-- Property access `j[k]` on a JSON value: defined on objects only. -/
def Json.getField (j : Json) (k : String) : Option Json :=
  match j with
  | .obj fields => lookupKey k fields
  | _ => none

/-- A thrown JavaScript `Error`: its `name` and its `message`. -/
structure JsError where
  name : String
  message : String

/-- Route parameters of `/dogs/:id`. -/
structure Params where
  id : String

/-- The part of an Express request the handlers read: `req.params` and the body
parsed by `express.json()`. -/
structure Request where
  params : Params
  body : Json

/-- What a handler sends: the status code and the JSON body. -/
structure Response where
  status : Nat
  body : Json

/-- Response of `res.status(code).send(body)` and `res.status(code).json(body)`. -/
def Response.withStatus (code : Nat) (body : Json) : Response :=
  ⟨code, body⟩

/-- Response of `res.json(body)` and `res.send(body)` with no status set:
Express answers 200. -/
def Response.plain (body : Json) : Response :=
  ⟨200, body⟩

/-- The object literal `{ error: msg }`. -/
def errorBody (msg : String) : Json :=
  .obj [("error", .str msg)]

/-- The object literal `{ error: msg, details: details }`. -/
def errorDetailsBody (msg details : String) : Json :=
  .obj [("error", .str msg), ("details", .str details)]

/-! ## The model interface and the store-call log -/

/-- The options object passed to `findByIdAndUpdate`. -/
structure UpdateOptions where
  new : Bool
  runValidators : Bool

/-- The awaited calls on the model `Dog`. -/
inductive StoreCall where
  | find
  | findById (id : String)
  | save (doc : Json)
  | findByIdAndUpdate (id : String) (update : Json) (options : UpdateOptions)
  | findByIdAndDelete (id : String)

/-- The model `Dog = mongoose.model("Dog", dogSchema)` as the handlers use it.
`construct` is `new Dog(body)`; the other fields are the awaited calls, each of
which returns a value or throws and yields the next store state. -/
structure Model (σ : Type) where
  construct : Json → Except JsError Json
  find : σ → Except JsError (List Json) × σ
  findById : String → σ → Except JsError (Option Json) × σ
  save : Json → σ → Except JsError Json × σ
  findByIdAndUpdate : String → Json → UpdateOptions → σ → Except JsError (Option Json) × σ
  findByIdAndDelete : String → σ → Except JsError (Option Json) × σ

/-- The store together with the log of awaited store calls, oldest first. -/
structure World (σ : Type) where
  store : σ
  calls : List StoreCall

/-- A handler run: a response, or an error that escaped the handler, and the
world afterwards. -/
abbrev Handled (σ : Type) := Except JsError Response × World σ

/-- The construct `await op`: log the call, run it on the store. -/
def await {σ α : Type} (call : StoreCall) (op : σ → Except JsError α × σ)
    (w : World σ) : Except JsError α × World σ :=
  let r := op w.store
  (r.1, ⟨r.2, w.calls ++ [call]⟩)

/-- The construct `try { body } catch (err) { handler }`. -/
def tryCatch {σ : Type} (body : World σ → Handled σ)
    (handler : JsError → World σ → Handled σ) (w : World σ) : Handled σ :=
  match body w with
  | (.ok r, w1) => (.ok r, w1)
  | (.error err, w1) => handler err w1

/-! ## The route handlers (`index.js` lines 42-138) -/

/-- Handler of `app.get("/dogs")`, lines 43-51. -/
def getDogs {σ : Type} (Dog : Model σ) (_req : Request) : World σ → Handled σ :=
  tryCatch
    (fun w =>
      match await .find Dog.find w with
      | (.error err, w1) => (.error err, w1)
      | (.ok dogs, w1) => (.ok (Response.plain (.arr dogs)), w1))
    (fun _err w => (.ok (Response.withStatus 500 (errorBody "Failed to fetch dogs")), w))

/-- Handler of `app.get("/dogs/:id")`, lines 54-74. -/
def getDogById {σ : Type} (isValid : String → Bool) (Dog : Model σ) (req : Request) :
    World σ → Handled σ :=
  tryCatch
    (fun w =>
      let dogId := req.params.id
      if !isValid dogId then
        (.ok (Response.withStatus 400 (errorBody "Invalid ID format")), w)
      else
        match await (.findById dogId) (Dog.findById dogId) w with
        | (.error err, w1) => (.error err, w1)
        | (.ok none, w1) => (.ok (Response.withStatus 404 (errorBody "Dog not found")), w1)
        | (.ok (some dog), w1) => (.ok (Response.plain dog), w1))
    (fun _err w => (.ok (Response.withStatus 500 (errorBody "Failed to fetch dog")), w))

/-- Handler of `app.post("/dogs")`, lines 77-88. -/
def postDogs {σ : Type} (Dog : Model σ) (req : Request) : World σ → Handled σ :=
  tryCatch
    (fun w =>
      match Dog.construct req.body with
      | .error err => (.error err, w)
      | .ok newDog =>
        match await (.save newDog) (Dog.save newDog) w with
        | (.error err, w1) => (.error err, w1)
        | (.ok savedDog, w1) => (.ok (Response.withStatus 201 savedDog), w1))
    (fun err w =>
      (.ok (Response.withStatus 400 (errorDetailsBody "Failed to create dog" err.message)), w))

/-- Handler of `app.put("/dogs/:id")`, lines 91-116. -/
def putDogById {σ : Type} (isValid : String → Bool) (Dog : Model σ) (req : Request) :
    World σ → Handled σ :=
  tryCatch
    (fun w =>
      let dogId := req.params.id
      if !isValid dogId then
        (.ok (Response.withStatus 400 (errorBody "Invalid ID format")), w)
      else
        let options : UpdateOptions := ⟨true, true⟩
        match await (.findByIdAndUpdate dogId req.body options)
            (Dog.findByIdAndUpdate dogId req.body options) w with
        | (.error err, w1) => (.error err, w1)
        | (.ok (some updatedDog), w1) => (.ok (Response.plain updatedDog), w1)
        | (.ok none, w1) => (.ok (Response.withStatus 404 (errorBody "Dog not found")), w1))
    (fun err w =>
      (.ok (Response.withStatus 400 (errorDetailsBody "Failed to update dog" err.message)), w))

/-- Handler of `app.delete("/dogs/:id")`, lines 119-138. -/
def deleteDogById {σ : Type} (isValid : String → Bool) (Dog : Model σ) (req : Request) :
    World σ → Handled σ :=
  tryCatch
    (fun w =>
      let dogId := req.params.id
      if !isValid dogId then
        (.ok (Response.withStatus 400 (errorBody "Invalid ID format")), w)
      else
        match await (.findByIdAndDelete dogId) (Dog.findByIdAndDelete dogId) w with
        | (.error err, w1) => (.error err, w1)
        | (.ok (some deletedDog), w1) => (.ok (Response.plain deletedDog), w1)
        | (.ok none, w1) => (.ok (Response.withStatus 404 (errorBody "Dog not found")), w1))
    (fun _err w => (.ok (Response.withStatus 500 (errorBody "Failed to delete dog")), w))

/-- An instance of the model interface whose every awaited call throws `err` and
leaves the store alone, as when the persistence layer is out of reach.  It
serves as a concrete model to evaluate the handlers on. -/
def unreachableDog (err : JsError) : Model Unit where
  construct := fun body => .ok body
  find := fun s => (.error err, s)
  findById := fun _ s => (.error err, s)
  save := fun _ s => (.error err, s)
  findByIdAndUpdate := fun _ _ _ s => (.error err, s)
  findByIdAndDelete := fun _ s => (.error err, s)

/-! ## The schema (`index.js` lines 22-36) -/

/-- The two schema types `dogSchema` uses: `String` and `Number`. -/
inductive SchemaType where
  | string
  | number

/-- One path of a schema: `path: { type: ..., required: ... }`. -/
structure SchemaField where
  path : String
  type : SchemaType
  required : Bool

/-- A top-level member of a schema: a path, or a nested object of paths. -/
inductive SchemaEntry where
  | field (f : SchemaField)
  | nested (path : String) (fields : List SchemaField)

/-- The schema `dogSchema`, lines 22-36. -/
def dogSchema : List SchemaEntry :=
  [ .field ⟨"name", .string, true⟩,
    .field ⟨"age", .number, true⟩,
    .field ⟨"gender", .string, true⟩,
    .field ⟨"color", .string, false⟩,
    .field ⟨"weight", .number, false⟩,
    .field ⟨"location", .string, false⟩,
    .field ⟨"imageUrl", .string, false⟩,
    .field ⟨"description", .string, false⟩,
    .nested "owner"
      [ ⟨"name", .string, false⟩,
        ⟨"bio", .string, false⟩,
        ⟨"imageUrl", .string, false⟩ ] ]

/-! ## The identifier format and the document store, modelled from the spec -/

/-- Modelled from the spec: one hexadecimal digit, either case (part of the
identifier format, whose library code is not in the repository). -/
def isHexChar (c : Char) : Bool :=
  ('0' ≤ c && c ≤ '9') || ('a' ≤ c && c ≤ 'f') || ('A' ≤ c && c ≤ 'F')

/-- Modelled from the spec: `mongoose.Types.ObjectId.isValid` is library code
that is not in the repository.  The spec (section 3) gives the format of a valid
store identifier as "a 24-character hexadecimal string in the reference store";
this is that test on a path identifier. -/
def ObjectId.isValid (id : String) : Bool :=
  id.length == 24 && id.toList.all isHexChar

/-- Modelled from the spec: the error a store call throws when the persistence
layer cannot be reached (spec section 7, Store-Unavailable); the driver that
raises it is not in the repository. -/
def networkError : JsError :=
  ⟨"MongoNetworkError", "connect ECONNREFUSED 127.0.0.1:27017"⟩

/-- Modelled from the spec: state of the document store, which is not in the
repository: the records by identifier in insertion order, the number of
identifiers issued so far, and whether the database answers. -/
structure Store where
  records : List (String × Json)
  issued : Nat
  reachable : Bool

/-- Modelled from the spec: the `n`-th identifier the store issues, `n` as 24
hexadecimal digits (identifier generation is store code, not in the
repository). -/
def freshId (n : Nat) : String :=
  let digits := Nat.toDigits 16 (n % 16 ^ 24)
  String.mk (List.replicate (24 - digits.length) '0' ++ digits)

/-- Modelled from the spec: a value that does not satisfy `required` ("present
and non-empty"): `null` or the empty string.  The validator is library code. -/
def isEmptyValue : Json → Bool
  | .null => true
  | .str s => s.isEmpty
  | _ => false

/-- Modelled from the spec: message of a failed `required` constraint (the text
is the library's; only its presence matters here). -/
def requiredMessage (path : String) : String :=
  "Path " ++ path ++ " is required."

/-- Modelled from the spec: message of a failed type constraint (the text is the
library's; only its presence matters here). -/
def castMessage (path : String) : String :=
  "Cast failed for value at path " ++ path

/-- Modelled from the spec: the store's check of one submitted value against its
path (library code): the type constraint `cast` always, the `required`
constraint when `validators` is on. -/
def checkField (cast : SchemaType → Json → Option Json) (validators : Bool)
    (f : SchemaField) (v : Json) : Except String Json :=
  match v with
  | .null =>
    if validators && f.required then .error (requiredMessage f.path) else .ok .null
  | _ =>
    match cast f.type v with
    | none => .error (castMessage f.path)
    | some v' =>
      if validators && f.required && isEmptyValue v' then .error (requiredMessage f.path)
      else .ok v'

/-- Modelled from the spec: the store's validation of one path against a payload
(library code).  A path absent from the payload fails
only when it is required and `requirePresent` is on (Create); otherwise it is
skipped (Update). -/
def validateField (cast : SchemaType → Json → Option Json) (validators requirePresent : Bool)
    (f : SchemaField) (payload : Json) : Except String (Option (String × Json)) :=
  match payload.getField f.path with
  | none =>
    if requirePresent && f.required then .error (requiredMessage f.path) else .ok none
  | some v =>
    match checkField cast validators f v with
    | .error m => .error m
    | .ok v' => .ok (some (f.path, v'))

/-- Modelled from the spec: the store's validation of a list of paths (library
code), keeping the accepted members in schema order; the first failing
constraint is the one reported. -/
def validateFields (cast : SchemaType → Json → Option Json) (validators requirePresent : Bool) :
    List SchemaField → Json → Except String (List (String × Json))
  | [], _ => .ok []
  | f :: rest, payload =>
    match validateField cast validators requirePresent f payload with
    | .error m => .error m
    | .ok accepted =>
      match validateFields cast validators requirePresent rest payload with
      | .error m => .error m
      | .ok members => .ok (accepted.toList ++ members)

/-- Modelled from the spec: the store's validation of one schema entry (library
code): a path, or the nested object under a path. -/
def validateEntry (cast : SchemaType → Json → Option Json) (validators requirePresent : Bool)
    (e : SchemaEntry) (payload : Json) : Except String (Option (String × Json)) :=
  match e with
  | .field f => validateField cast validators requirePresent f payload
  | .nested path fields =>
    match payload.getField path with
    | none => .ok none
    | some sub =>
      match validateFields cast validators requirePresent fields sub with
      | .error m => .error m
      | .ok members => .ok (some (path, .obj members))

/-- Modelled from the spec: the store's validation of a payload against a schema
(library code).  Members of the payload that name no path of the schema are
dropped ("unknown fields are ignored"). -/
def validateDoc (cast : SchemaType → Json → Option Json) (validators requirePresent : Bool) :
    List SchemaEntry → Json → Except String (List (String × Json))
  | [], _ => .ok []
  | e :: rest, payload =>
    match validateEntry cast validators requirePresent e payload with
    | .error m => .error m
    | .ok accepted =>
      match validateDoc cast validators requirePresent rest payload with
      | .error m => .error m
      | .ok members => .ok (accepted.toList ++ members)

/-- Modelled from the spec: set member `k` of a stored record to `v`, replacing
it in place or appending it (the store's field merge, not in the repository). -/
def setKey (k : String) (v : Json) : List (String × Json) → List (String × Json)
  | [] => [(k, v)]
  | (k', v') :: rest => if k' = k then (k, v) :: rest else (k', v') :: setKey k v rest

/-- Modelled from the spec: merge the accepted members of an update into a
record by field name, other fields untouched (store code, not in the
repository). -/
def mergeRecord (record : Json) (update : List (String × Json)) : Json :=
  match record with
  | .obj fields => .obj (update.foldl (fun acc kv => setKey kv.1 kv.2 acc) fields)
  | other => other

/-- Modelled from the spec: remove the record stored under `id` (store code, not
in the repository). -/
def eraseRecord (id : String) (records : List (String × Json)) : List (String × Json) :=
  records.filter (fun p => !(p.1 == id))

/-- Modelled from the spec: replace the record stored under `id` by `record`
(store code, not in the repository). -/
def replaceRecord (id : String) (record : Json) (records : List (String × Json)) :
    List (String × Json) :=
  records.map (fun p => if p.1 = id then (id, record) else p)

/-- Modelled from the spec: the model `Dog` over a document store, whose code
(mongoose and the database) is not in the repository.  The store is a map from
identifiers to records (spec sections 3 and 4.1).
* List returns every record; Get-by-id looks one up.
* Create checks that the required paths of `dogSchema` are present, non-empty
  and well-typed, ignores unknown fields, assigns a new identifier and persists
  the record; a validation failure persists nothing.
* Update checks the fields present in the payload against the same type
  constraints without requiring the required paths, merges them into the record
  by field name and returns the new state (the old one when `new` is off); an
  absent record yields `null` without side effects and a failed constraint
  aborts the whole update.
* Delete removes the record and returns it as it was.
* Every call on an unreachable store throws and changes nothing.
The type constraint of each schema type is the parameter `cast`; the identifier
is kept in the record under `_id`. -/
def storeDog (cast : SchemaType → Json → Option Json) : Model Store where
  construct := fun body => .ok body
  find := fun s =>
    if s.reachable then (.ok (s.records.map Prod.snd), s) else (.error networkError, s)
  findById := fun id s =>
    if s.reachable then (.ok (lookupKey id s.records), s) else (.error networkError, s)
  save := fun doc s =>
    match validateDoc cast true true dogSchema doc with
    | .error m => (.error ⟨"ValidationError", "Dog validation failed: " ++ m⟩, s)
    | .ok members =>
      if s.reachable then
        let id := freshId s.issued
        let record := Json.obj (("_id", .str id) :: members)
        (.ok record, ⟨s.records ++ [(id, record)], s.issued + 1, s.reachable⟩)
      else (.error networkError, s)
  findByIdAndUpdate := fun id update options s =>
    match validateDoc cast options.runValidators false dogSchema update with
    | .error m => (.error ⟨"ValidationError", "Validation failed: " ++ m⟩, s)
    | .ok members =>
      if s.reachable then
        match lookupKey id s.records with
        | none => (.ok none, s)
        | some old =>
          let record := mergeRecord old members
          (.ok (some (if options.new then record else old)),
            ⟨replaceRecord id record s.records, s.issued, s.reachable⟩)
      else (.error networkError, s)
  findByIdAndDelete := fun id s =>
    if s.reachable then
      (.ok (lookupKey id s.records), ⟨eraseRecord id s.records, s.issued, s.reachable⟩)
    else (.error networkError, s)

/-- Modelled from the spec: one possible type constraint of the store ("well-typed"),
accepting exactly JSON strings for `String` paths and JSON numbers for `Number`
paths.  The theorems hold for every type constraint; this one instantiates
them. -/
def strictCast : SchemaType → Json → Option Json
  | .string, .str s => some (.str s)
  | .number, .num n => some (.num n)
  | _, _ => none

/-! ## Predicates on handler runs -/

/-- The body is a JSON object whose `error` member is a text message. -/
def HasErrorMessage (body : Json) : Prop :=
  ∃ msg : String, body.getField "error" = some (.str msg)

/-- The run ended in a response, not in an error escaping the handler, and a
response whose status is neither 200 nor 201 carries an `error` message. -/
def Responds {σ : Type} (h : Handled σ) : Prop :=
  ∃ r : Response, h.1 = .ok r ∧ (r.status = 200 ∨ r.status = 201 ∨ HasErrorMessage r.body)

/-- The identifier is a 24-character hexadecimal string: it has 24 characters
and each of them is one of `0-9`, `a-f`, `A-F`. -/
def IsHex24 (id : String) : Prop :=
  id.length = 24 ∧ ∀ c ∈ id.toList, c ∈ "0123456789abcdefABCDEF".toList

/-! ## Responses of the handlers over an arbitrary model -/

/-- Get-by-id, Update and Delete on a malformed identifier: the fixed 400
response, and the world is left as it was. -/
theorem handlers_of_invalid {σ : Type} (isValid : String → Bool)
    (Dog : Model σ) (req : Request) (w : World σ) (h : isValid req.params.id = false) :
    getDogById isValid Dog req w = (.ok ⟨400, errorBody "Invalid ID format"⟩, w)
      ∧ putDogById isValid Dog req w = (.ok ⟨400, errorBody "Invalid ID format"⟩, w)
      ∧ deleteDogById isValid Dog req w = (.ok ⟨400, errorBody "Invalid ID format"⟩, w) := by
  simp [getDogById, putDogById, deleteDogById, tryCatch, h, Response.withStatus]

/-- C1: for an identifier that the identifier-validity check rejects, Get-by-id,
Update and Delete each answer 400 with body `{"error":"Invalid ID format"}` and
leave the world as it was: no store call is logged and the store is untouched,
whatever the request body and the model are. -/
theorem invalid_id_answers_400_without_store_call {σ : Type} (isValid : String → Bool)
    (Dog : Model σ) (req : Request) (w : World σ) (h : isValid req.params.id = false) :
    getDogById isValid Dog req w
        = (.ok ⟨400, .obj [("error", .str "Invalid ID format")]⟩, w)
      ∧ putDogById isValid Dog req w
        = (.ok ⟨400, .obj [("error", .str "Invalid ID format")]⟩, w)
      ∧ deleteDogById isValid Dog req w
        = (.ok ⟨400, .obj [("error", .str "Invalid ID format")]⟩, w)
      ∧ (getDogById isValid Dog req w).2.calls = w.calls
      ∧ (putDogById isValid Dog req w).2.calls = w.calls
      ∧ (deleteDogById isValid Dog req w).2.calls = w.calls := by
  simp [getDogById, putDogById, deleteDogById, tryCatch, h, Response.withStatus, errorBody]

/-- Witness of C1 at `GET/PUT/DELETE /dogs/not-an-id` on a fresh log. -/
theorem invalid_id_answers_400_without_store_call_witness :
    ObjectId.isValid "not-an-id" = false
      ∧ getDogById ObjectId.isValid (unreachableDog networkError)
          ⟨⟨"not-an-id"⟩, .obj [("weight", .num 20)]⟩ ⟨(), []⟩
        = (.ok ⟨400, .obj [("error", .str "Invalid ID format")]⟩, ⟨(), []⟩) :=
  ⟨by decide,
    (invalid_id_answers_400_without_store_call ObjectId.isValid (unreachableDog networkError)
      ⟨⟨"not-an-id"⟩, .obj [("weight", .num 20)]⟩ ⟨(), []⟩ (by decide)).1⟩

/-- Get-by-id on a well-formed identifier: one `findById` call, and the response
is read off its outcome. -/
theorem getDogById_of_valid {σ : Type} (isValid : String → Bool) (Dog : Model σ)
    (req : Request) (w : World σ) (hv : isValid req.params.id = true) :
    getDogById isValid Dog req w =
      (match (Dog.findById req.params.id w.store).1 with
        | .ok (some dog) => .ok ⟨200, dog⟩
        | .ok none => .ok ⟨404, errorBody "Dog not found"⟩
        | .error _ => .ok ⟨500, errorBody "Failed to fetch dog"⟩,
        ⟨(Dog.findById req.params.id w.store).2, w.calls ++ [.findById req.params.id]⟩) := by
  rcases h : Dog.findById req.params.id w.store with ⟨_ | _ | _, s'⟩ <;>
    simp [getDogById, tryCatch, await, hv, h, Response.withStatus, Response.plain]

/-- Update on a well-formed identifier: one `findByIdAndUpdate` call with the
options `new` and `runValidators` on, and the response is read off its outcome. -/
theorem putDogById_of_valid {σ : Type} (isValid : String → Bool) (Dog : Model σ)
    (req : Request) (w : World σ) (hv : isValid req.params.id = true) :
    putDogById isValid Dog req w =
      (match (Dog.findByIdAndUpdate req.params.id req.body ⟨true, true⟩ w.store).1 with
        | .ok (some updatedDog) => .ok ⟨200, updatedDog⟩
        | .ok none => .ok ⟨404, errorBody "Dog not found"⟩
        | .error err => .ok ⟨400, errorDetailsBody "Failed to update dog" err.message⟩,
        ⟨(Dog.findByIdAndUpdate req.params.id req.body ⟨true, true⟩ w.store).2,
          w.calls ++ [.findByIdAndUpdate req.params.id req.body ⟨true, true⟩]⟩) := by
  rcases h : Dog.findByIdAndUpdate req.params.id req.body ⟨true, true⟩ w.store
    with ⟨_ | _ | _, s'⟩ <;>
    simp [putDogById, tryCatch, await, hv, h, Response.withStatus, Response.plain]

/-- Delete on a well-formed identifier: one `findByIdAndDelete` call, and the
response is read off its outcome. -/
theorem deleteDogById_of_valid {σ : Type} (isValid : String → Bool) (Dog : Model σ)
    (req : Request) (w : World σ) (hv : isValid req.params.id = true) :
    deleteDogById isValid Dog req w =
      (match (Dog.findByIdAndDelete req.params.id w.store).1 with
        | .ok (some deletedDog) => .ok ⟨200, deletedDog⟩
        | .ok none => .ok ⟨404, errorBody "Dog not found"⟩
        | .error _ => .ok ⟨500, errorBody "Failed to delete dog"⟩,
        ⟨(Dog.findByIdAndDelete req.params.id w.store).2,
          w.calls ++ [.findByIdAndDelete req.params.id]⟩) := by
  rcases h : Dog.findByIdAndDelete req.params.id w.store with ⟨_ | _ | _, s'⟩ <;>
    simp [deleteDogById, tryCatch, await, hv, h, Response.withStatus, Response.plain]

/-- List: one `find` call, and the response is read off its outcome. -/
theorem getDogs_eq {σ : Type} (Dog : Model σ) (req : Request) (w : World σ) :
    getDogs Dog req w =
      (match (Dog.find w.store).1 with
        | .ok dogs => .ok ⟨200, .arr dogs⟩
        | .error _ => .ok ⟨500, errorBody "Failed to fetch dogs"⟩,
        ⟨(Dog.find w.store).2, w.calls ++ [.find]⟩) := by
  rcases h : Dog.find w.store with ⟨_ | _, s'⟩ <;>
    simp [getDogs, tryCatch, await, h, Response.withStatus, Response.plain]

/-- Create when `new Dog(body)` yields a document: one `save` call, and the
response is read off its outcome. -/
theorem postDogs_of_constructed {σ : Type} (Dog : Model σ) (req : Request) (w : World σ)
    (newDog : Json) (hc : Dog.construct req.body = .ok newDog) :
    postDogs Dog req w =
      (match (Dog.save newDog w.store).1 with
        | .ok savedDog => .ok ⟨201, savedDog⟩
        | .error err => .ok ⟨400, errorDetailsBody "Failed to create dog" err.message⟩,
        ⟨(Dog.save newDog w.store).2, w.calls ++ [.save newDog]⟩) := by
  rcases h : Dog.save newDog w.store with ⟨_ | _, s'⟩ <;>
    simp [postDogs, tryCatch, await, hc, h, Response.withStatus]

/-- Create when `new Dog(body)` throws: no store call, status 400. -/
theorem postDogs_of_construct_error {σ : Type} (Dog : Model σ) (req : Request) (w : World σ)
    (err : JsError) (hc : Dog.construct req.body = .error err) :
    postDogs Dog req w =
      (.ok ⟨400, errorDetailsBody "Failed to create dog" err.message⟩, w) := by
  simp [postDogs, tryCatch, hc, Response.withStatus]

/-- C2: the response of Get-by-id tells its four outcomes apart.  It is 400
`{"error":"Invalid ID format"}` exactly when the identifier is malformed; for a
well-formed identifier it is 404 `{"error":"Dog not found"}` exactly when the
lookup returns no record, 500 `{"error":"Failed to fetch dog"}` exactly when the
lookup throws, and 200 with body `dog` exactly when the lookup returns the
record `dog`. -/
theorem getDogById_outcomes_distinct {σ : Type} (isValid : String → Bool) (Dog : Model σ)
    (req : Request) (w : World σ) :
    ((getDogById isValid Dog req w).1
          = .ok ⟨400, .obj [("error", .str "Invalid ID format")]⟩
        ↔ isValid req.params.id = false)
      ∧ ((getDogById isValid Dog req w).1
          = .ok ⟨404, .obj [("error", .str "Dog not found")]⟩
        ↔ isValid req.params.id = true
          ∧ (Dog.findById req.params.id w.store).1 = .ok none)
      ∧ ((getDogById isValid Dog req w).1
          = .ok ⟨500, .obj [("error", .str "Failed to fetch dog")]⟩
        ↔ isValid req.params.id = true
          ∧ ∃ err, (Dog.findById req.params.id w.store).1 = .error err)
      ∧ ∀ dog : Json, ((getDogById isValid Dog req w).1 = .ok ⟨200, dog⟩
        ↔ isValid req.params.id = true
          ∧ (Dog.findById req.params.id w.store).1 = .ok (some dog)) := by
  cases hv : isValid req.params.id
  · simp [(handlers_of_invalid isValid Dog req w hv).1, errorBody]
  · rw [getDogById_of_valid isValid Dog req w hv]
    rcases (Dog.findById req.params.id w.store).1 with _ | _ | _ <;> simp [errorBody]

/-- Witness of C2 on the unreachable model: a well-formed identifier whose
lookup throws is answered 500 `{"error":"Failed to fetch dog"}`. -/
theorem getDogById_outcomes_distinct_witness :
    (getDogById ObjectId.isValid (unreachableDog networkError)
        ⟨⟨"65a1b2c3d4e5f60718293a4b"⟩, .null⟩ ⟨(), []⟩).1
      = .ok ⟨500, .obj [("error", .str "Failed to fetch dog")]⟩ :=
  (getDogById_outcomes_distinct ObjectId.isValid (unreachableDog networkError)
      ⟨⟨"65a1b2c3d4e5f60718293a4b"⟩, .null⟩ ⟨(), []⟩).2.2.1.mpr
    ⟨by decide, networkError, rfl⟩

/-- C3: for every Create payload from which `new Dog(body)` builds a document,
when the save succeeds the response is 201 and its body is the record the store
returned, every member of it included (so also the identifier the store
assigned); when the save fails the response is 400 with body
`{"error":"Failed to create dog","details":m}`, `m` being the message of the
error the store raised. -/
theorem postDogs_created_or_failed {σ : Type} (Dog : Model σ) (req : Request) (w : World σ)
    (newDog : Json) (hc : Dog.construct req.body = .ok newDog) :
    (∀ (savedDog : Json) (s' : σ), Dog.save newDog w.store = (.ok savedDog, s') →
        postDogs Dog req w = (.ok ⟨201, savedDog⟩, ⟨s', w.calls ++ [.save newDog]⟩)
          ∧ ∀ (k : String) (r : Response), (postDogs Dog req w).1 = .ok r →
              r.body.getField k = savedDog.getField k)
      ∧ (∀ (err : JsError) (s' : σ), Dog.save newDog w.store = (.error err, s') →
        postDogs Dog req w
          = (.ok ⟨400, .obj [("error", .str "Failed to create dog"),
                ("details", .str err.message)]⟩, ⟨s', w.calls ++ [.save newDog]⟩)) := by
  rw [postDogs_of_constructed Dog req w newDog hc]
  refine ⟨fun savedDog s' h => ?_, fun err s' h => ?_⟩
  · simp only [h, true_and]
    intro k r hr
    cases hr
    rfl
  · simp [h, errorDetailsBody]

/-- Witness of C3: `POST /dogs` with `{"name":"Rex","age":3,"gender":"male"}` on
an empty reachable store is answered 201 with the persisted record. -/
theorem postDogs_created_or_failed_witness :
    postDogs (storeDog strictCast)
        ⟨⟨""⟩, .obj [("name", .str "Rex"), ("age", .num 3), ("gender", .str "male")]⟩
        ⟨⟨[], 0, true⟩, []⟩
      = (.ok ⟨201, .obj [("_id", .str "000000000000000000000000"), ("name", .str "Rex"),
              ("age", .num 3), ("gender", .str "male")]⟩,
          ⟨⟨[("000000000000000000000000",
                .obj [("_id", .str "000000000000000000000000"), ("name", .str "Rex"),
                  ("age", .num 3), ("gender", .str "male")])], 1, true⟩,
            [.save (.obj [("name", .str "Rex"), ("age", .num 3), ("gender", .str "male")])]⟩) :=
  ((postDogs_created_or_failed (storeDog strictCast)
      ⟨⟨""⟩, .obj [("name", .str "Rex"), ("age", .num 3), ("gender", .str "male")]⟩
      ⟨⟨[], 0, true⟩, []⟩ _ rfl).1 _ _ rfl).1

/-- Counterexample to C7 as stated: with the database out of reach (a network
error, not a validation error), Create and Update answer 400, not 500, and the
body carries the text of the underlying error under `details`. -/
theorem create_update_store_failure_answer_400_with_details :
    networkError.name ≠ "ValidationError"
      ∧ (postDogs (unreachableDog networkError)
            ⟨⟨""⟩, .obj [("name", .str "Rex"), ("age", .num 3), ("gender", .str "male")]⟩
            ⟨(), []⟩).1
          = .ok ⟨400, .obj [("error", .str "Failed to create dog"),
              ("details", .str "connect ECONNREFUSED 127.0.0.1:27017")]⟩
      ∧ (putDogById ObjectId.isValid (unreachableDog networkError)
            ⟨⟨"65a1b2c3d4e5f60718293a4b"⟩, .obj [("weight", .num 20)]⟩ ⟨(), []⟩).1
          = .ok ⟨400, .obj [("error", .str "Failed to update dog"),
              ("details", .str "connect ECONNREFUSED 127.0.0.1:27017")]⟩
      ∧ (400 : Nat) ≠ 500 :=
  ⟨by decide, rfl, rfl, by decide⟩

/-- C7 (amended): when the store call throws any error `err`, List, Get-by-id
and Delete answer 500 with a fixed body that does not depend on `err`, while
Create and Update answer 400 with `details` set to the message of `err`,
whether or not `err` is a validation error. -/
theorem store_failure_responses {σ : Type} (isValid : String → Bool) (Dog : Model σ)
    (req : Request) (w : World σ) (err : JsError) :
    ((Dog.find w.store).1 = .error err →
        (getDogs Dog req w).1 = .ok ⟨500, .obj [("error", .str "Failed to fetch dogs")]⟩)
      ∧ (isValid req.params.id = true → (Dog.findById req.params.id w.store).1 = .error err →
        (getDogById isValid Dog req w).1
          = .ok ⟨500, .obj [("error", .str "Failed to fetch dog")]⟩)
      ∧ (isValid req.params.id = true →
          (Dog.findByIdAndDelete req.params.id w.store).1 = .error err →
        (deleteDogById isValid Dog req w).1
          = .ok ⟨500, .obj [("error", .str "Failed to delete dog")]⟩)
      ∧ (∀ newDog : Json, Dog.construct req.body = .ok newDog →
          (Dog.save newDog w.store).1 = .error err →
        (postDogs Dog req w).1
          = .ok ⟨400, .obj [("error", .str "Failed to create dog"),
              ("details", .str err.message)]⟩)
      ∧ (isValid req.params.id = true →
          (Dog.findByIdAndUpdate req.params.id req.body ⟨true, true⟩ w.store).1 = .error err →
        (putDogById isValid Dog req w).1
          = .ok ⟨400, .obj [("error", .str "Failed to update dog"),
              ("details", .str err.message)]⟩) := by
  refine ⟨fun h => ?_, fun hv h => ?_, fun hv h => ?_, fun newDog hc h => ?_, fun hv h => ?_⟩
  · rw [getDogs_eq]; simp [h, errorBody]
  · rw [getDogById_of_valid isValid Dog req w hv]; simp [h, errorBody]
  · rw [deleteDogById_of_valid isValid Dog req w hv]; simp [h, errorBody]
  · rw [postDogs_of_constructed Dog req w newDog hc]; simp [h, errorDetailsBody]
  · rw [putDogById_of_valid isValid Dog req w hv]; simp [h, errorDetailsBody]

/-- Witness of C7 (amended): List and Create with the database out of reach. -/
theorem store_failure_responses_witness :
    (getDogs (unreachableDog networkError) ⟨⟨""⟩, .null⟩ ⟨(), []⟩).1
        = .ok ⟨500, .obj [("error", .str "Failed to fetch dogs")]⟩
      ∧ (postDogs (unreachableDog networkError) ⟨⟨""⟩, .null⟩ ⟨(), []⟩).1
        = .ok ⟨400, .obj [("error", .str "Failed to create dog"),
            ("details", .str "connect ECONNREFUSED 127.0.0.1:27017")]⟩ :=
  ⟨(store_failure_responses ObjectId.isValid (unreachableDog networkError) ⟨⟨""⟩, .null⟩
      ⟨(), []⟩ networkError).1 rfl,
    (store_failure_responses ObjectId.isValid (unreachableDog networkError) ⟨⟨""⟩, .null⟩
      ⟨(), []⟩ networkError).2.2.2.1 .null rfl rfl⟩

/-- C8: for every request, every model and every store state, each of the five
handlers ends in a response (no error escapes it), and a response whose status
is neither 200 nor 201 is a JSON object with an `error` member holding text. -/
theorem handlers_always_respond {σ : Type} (isValid : String → Bool) (Dog : Model σ)
    (req : Request) (w : World σ) :
    Responds (getDogs Dog req w)
      ∧ Responds (getDogById isValid Dog req w)
      ∧ Responds (postDogs Dog req w)
      ∧ Responds (putDogById isValid Dog req w)
      ∧ Responds (deleteDogById isValid Dog req w) := by
  refine ⟨?_, ?_, ?_, ?_, ?_⟩
  · rw [getDogs_eq]
    rcases (Dog.find w.store).1 with _ | _ <;>
      simp [Responds, HasErrorMessage, errorBody, Json.getField, lookupKey]
  · cases hv : isValid req.params.id
    · simp [(handlers_of_invalid isValid Dog req w hv).1, Responds, HasErrorMessage,
        errorBody, Json.getField, lookupKey]
    · rw [getDogById_of_valid isValid Dog req w hv]
      rcases (Dog.findById req.params.id w.store).1 with _ | _ | _ <;>
        simp [Responds, HasErrorMessage, errorBody, Json.getField, lookupKey]
  · cases hc : Dog.construct req.body with
    | error err =>
      simp [postDogs_of_construct_error Dog req w err hc, Responds, HasErrorMessage,
        errorDetailsBody, Json.getField, lookupKey]
    | ok newDog =>
      rw [postDogs_of_constructed Dog req w newDog hc]
      rcases (Dog.save newDog w.store).1 with _ | _ <;>
        simp [Responds, HasErrorMessage, errorDetailsBody, Json.getField, lookupKey]
  · cases hv : isValid req.params.id
    · simp [(handlers_of_invalid isValid Dog req w hv).2.1, Responds, HasErrorMessage,
        errorBody, Json.getField, lookupKey]
    · rw [putDogById_of_valid isValid Dog req w hv]
      rcases (Dog.findByIdAndUpdate req.params.id req.body ⟨true, true⟩ w.store).1
        with _ | _ | _ <;>
        simp [Responds, HasErrorMessage, errorBody, errorDetailsBody, Json.getField, lookupKey]
  · cases hv : isValid req.params.id
    · simp [(handlers_of_invalid isValid Dog req w hv).2.2, Responds, HasErrorMessage,
        errorBody, Json.getField, lookupKey]
    · rw [deleteDogById_of_valid isValid Dog req w hv]
      rcases (Dog.findByIdAndDelete req.params.id w.store).1 with _ | _ | _ <;>
        simp [Responds, HasErrorMessage, errorBody, Json.getField, lookupKey]

/-! ## The handlers over the document store -/

/-- Looking up an erased identifier finds nothing. -/
theorem lookupKey_eraseRecord (id : String) (records : List (String × Json)) :
    lookupKey id (eraseRecord id records) = none := by
  induction records with
  | nil => rfl
  | cons p rest ih =>
    obtain ⟨k, v⟩ := p
    by_cases h : k = id
    · simpa [eraseRecord, List.filter_cons, h] using ih
    · simpa [eraseRecord, List.filter_cons, h, lookupKey] using ih

/-- After replacing the record of a stored identifier, a lookup finds the new
record. -/
theorem lookupKey_replaceRecord (id : String) (record old : Json)
    (records : List (String × Json)) (h : lookupKey id records = some old) :
    lookupKey id (replaceRecord id record records) = some record := by
  induction records with
  | nil => simp [lookupKey] at h
  | cons p rest ih =>
    obtain ⟨k, v⟩ := p
    by_cases hp : k = id
    · have hcons : replaceRecord id record ((k, v) :: rest)
          = (id, record) :: replaceRecord id record rest := by
        simp [replaceRecord, hp]
      rw [hcons]
      simp [lookupKey]
    · have hrest : lookupKey id rest = some old := by simpa [lookupKey, hp] using h
      have hcons : replaceRecord id record ((k, v) :: rest)
          = (k, v) :: replaceRecord id record rest := by
        simp [replaceRecord, hp]
      rw [hcons]
      simpa [lookupKey, hp] using ih hrest

/-- A required path that the payload lacks makes Create-validation fail,
wherever the path stands in the schema. -/
theorem validateDoc_missing_required (cast : SchemaType → Json → Option Json)
    (validators : Bool) (f : SchemaField) (payload : Json) (hreq : f.required = true)
    (hmiss : payload.getField f.path = none) (entries : List SchemaEntry)
    (hmem : SchemaEntry.field f ∈ entries) :
    ∃ m, validateDoc cast validators true entries payload = .error m := by
  induction entries with
  | nil => simp at hmem
  | cons e rest ih =>
    rcases List.mem_cons.mp hmem with he | hrest
    · subst he
      exact ⟨requiredMessage f.path, by simp [validateDoc, validateEntry, validateField, hmiss, hreq]⟩
    · obtain ⟨m, hm⟩ := ih hrest
      cases hv : validateEntry cast validators true e payload with
      | error m' => exact ⟨m', by simp [validateDoc, hv]⟩
      | ok accepted => exact ⟨m, by simp [validateDoc, hv, hm]⟩

/-- A payload that lacks `name`, `age` or `gender` fails Create-validation
against `dogSchema`. -/
theorem validateDoc_dogSchema_missing (cast : SchemaType → Json → Option Json)
    (payload : Json)
    (h : payload.getField "name" = none ∨ payload.getField "age" = none
      ∨ payload.getField "gender" = none) :
    ∃ m, validateDoc cast true true dogSchema payload = .error m := by
  rcases h with h | h | h
  · exact validateDoc_missing_required cast true ⟨"name", .string, true⟩ payload rfl h
      dogSchema (by simp [dogSchema])
  · exact validateDoc_missing_required cast true ⟨"age", .number, true⟩ payload rfl h
      dogSchema (by simp [dogSchema])
  · exact validateDoc_missing_required cast true ⟨"gender", .string, true⟩ payload rfl h
      dogSchema (by simp [dogSchema])

/-- C4: for every Create payload that lacks `name`, `age` or `gender`, whatever
the type constraints and the store state are, the response is 400 with the
validation message under `details`, the store after the request equals the
store before it, and a List on the store afterwards answers as a List on the
store before. -/
theorem postDogs_missing_required_persists_nothing (cast : SchemaType → Json → Option Json)
    (req : Request) (w : World Store)
    (h : req.body.getField "name" = none ∨ req.body.getField "age" = none
      ∨ req.body.getField "gender" = none) :
    (∃ m : String, (postDogs (storeDog cast) req w).1
        = .ok ⟨400, .obj [("error", .str "Failed to create dog"), ("details", .str m)]⟩)
      ∧ (postDogs (storeDog cast) req w).2.store = w.store
      ∧ (getDogs (storeDog cast) req (postDogs (storeDog cast) req w).2).1
        = (getDogs (storeDog cast) req w).1 := by
  obtain ⟨m, hm⟩ := validateDoc_dogSchema_missing cast req.body h
  have hrun : postDogs (storeDog cast) req w
      = (.ok ⟨400, errorDetailsBody "Failed to create dog" ("Dog validation failed: " ++ m)⟩,
          ⟨w.store, w.calls ++ [.save req.body]⟩) := by
    rw [postDogs_of_constructed (storeDog cast) req w req.body rfl]
    simp [storeDog, hm]
  refine ⟨⟨"Dog validation failed: " ++ m, by rw [hrun]; rfl⟩, by rw [hrun], ?_⟩
  rw [hrun, getDogs_eq, getDogs_eq]

/-- Witness of C4: `POST /dogs` with `{"name":"Rex","gender":"male"}` (no `age`)
on a store holding one record. -/
theorem postDogs_missing_required_persists_nothing_witness :
    (postDogs (storeDog strictCast)
        ⟨⟨""⟩, .obj [("name", .str "Rex"), ("gender", .str "male")]⟩
        ⟨⟨[("000000000000000000000000", .obj [("_id", .str "000000000000000000000000"),
            ("name", .str "Bo"), ("age", .num 5), ("gender", .str "female")])], 1, true⟩,
          []⟩).2.store
      = ⟨[("000000000000000000000000", .obj [("_id", .str "000000000000000000000000"),
            ("name", .str "Bo"), ("age", .num 5), ("gender", .str "female")])], 1, true⟩ :=
  (postDogs_missing_required_persists_nothing strictCast
    ⟨⟨""⟩, .obj [("name", .str "Rex"), ("gender", .str "male")]⟩
    ⟨⟨[("000000000000000000000000", .obj [("_id", .str "000000000000000000000000"),
        ("name", .str "Bo"), ("age", .num 5), ("gender", .str "female")])], 1, true⟩, []⟩
    (Or.inr (Or.inl rfl))).2.1

/-- C9: over the document store, for every well-formed identifier and every
reachable store state, Delete followed by Get-by-id of the same identifier is
answered 404 `{"error":"Dog not found"}`, whether or not a record was stored
under the identifier before the Delete. -/
theorem get_after_delete_answers_404 (cast : SchemaType → Json → Option Json)
    (isValid : String → Bool) (req : Request) (w : World Store)
    (hv : isValid req.params.id = true) (hr : w.store.reachable = true) :
    (getDogById isValid (storeDog cast) req
        (deleteDogById isValid (storeDog cast) req w).2).1
      = .ok ⟨404, .obj [("error", .str "Dog not found")]⟩ := by
  rw [getDogById_of_valid isValid (storeDog cast) req _ hv,
    deleteDogById_of_valid isValid (storeDog cast) req w hv]
  simp [storeDog, hr, lookupKey_eraseRecord, errorBody]

/-- Witness of C9: Delete then Get-by-id of a stored record. -/
theorem get_after_delete_answers_404_witness :
    (getDogById ObjectId.isValid (storeDog strictCast) ⟨⟨"000000000000000000000000"⟩, .null⟩
        (deleteDogById ObjectId.isValid (storeDog strictCast)
          ⟨⟨"000000000000000000000000"⟩, .null⟩
          ⟨⟨[("000000000000000000000000", .obj [("_id", .str "000000000000000000000000"),
              ("name", .str "Bo"), ("age", .num 5), ("gender", .str "female")])], 1, true⟩,
            []⟩).2).1
      = .ok ⟨404, .obj [("error", .str "Dog not found")]⟩ :=
  get_after_delete_answers_404 strictCast ObjectId.isValid
    ⟨⟨"000000000000000000000000"⟩, .null⟩
    ⟨⟨[("000000000000000000000000", .obj [("_id", .str "000000000000000000000000"),
        ("name", .str "Bo"), ("age", .num 5), ("gender", .str "female")])], 1, true⟩, []⟩
    (by decide) rfl

/-- C5: Update on a well-formed identifier.  Over any model: when
`findByIdAndUpdate` returns a record the response is 200 with that record as
body, when it returns none the response is 404 `{"error":"Dog not found"}`, and
when it throws the response is 400
`{"error":"Failed to update dog","details":m}` with `m` the error message.
Over the document store: a 200 body is the record stored under the identifier
after the update, a 404 leaves the store unchanged, and a payload that fails
validation is answered 400 with the constraint message and the store
unchanged. -/
theorem putDogById_outcomes {σ : Type} (isValid : String → Bool) (Dog : Model σ)
    (cast : SchemaType → Json → Option Json) (req : Request) (w : World σ) (ws : World Store)
    (hv : isValid req.params.id = true) :
    ((∀ (record : Json) (s' : σ),
          Dog.findByIdAndUpdate req.params.id req.body ⟨true, true⟩ w.store
            = (.ok (some record), s') →
          (putDogById isValid Dog req w).1 = .ok ⟨200, record⟩)
        ∧ (∀ s' : σ,
          Dog.findByIdAndUpdate req.params.id req.body ⟨true, true⟩ w.store = (.ok none, s') →
          (putDogById isValid Dog req w).1
            = .ok ⟨404, .obj [("error", .str "Dog not found")]⟩)
        ∧ (∀ (err : JsError) (s' : σ),
          Dog.findByIdAndUpdate req.params.id req.body ⟨true, true⟩ w.store
            = (.error err, s') →
          (putDogById isValid Dog req w).1
            = .ok ⟨400, .obj [("error", .str "Failed to update dog"),
                ("details", .str err.message)]⟩))
      ∧ ((∀ record : Json, (putDogById isValid (storeDog cast) req ws).1 = .ok ⟨200, record⟩ →
          lookupKey req.params.id (putDogById isValid (storeDog cast) req ws).2.store.records
            = some record)
        ∧ ((putDogById isValid (storeDog cast) req ws).1
              = .ok ⟨404, .obj [("error", .str "Dog not found")]⟩ →
          (putDogById isValid (storeDog cast) req ws).2.store = ws.store)
        ∧ (∀ m : String, validateDoc cast true false dogSchema req.body = .error m →
          (putDogById isValid (storeDog cast) req ws).1
              = .ok ⟨400, .obj [("error", .str "Failed to update dog"),
                  ("details", .str ("Validation failed: " ++ m))]⟩
            ∧ (putDogById isValid (storeDog cast) req ws).2.store = ws.store)) := by
  refine ⟨?_, ?_⟩
  · rw [putDogById_of_valid isValid Dog req w hv]
    refine ⟨fun record s' h => ?_, fun s' h => ?_, fun err s' h => ?_⟩
    · simp [h]
    · simp [h, errorBody]
    · simp [h, errorDetailsBody]
  · rw [putDogById_of_valid isValid (storeDog cast) req ws hv]
    refine ⟨fun record h => ?_, fun h => ?_, fun m hm => ?_⟩
    · cases hval : validateDoc cast true false dogSchema req.body with
      | error m => simp [storeDog, hval, errorDetailsBody] at h
      | ok members =>
        cases hr : ws.store.reachable with
        | false => simp [storeDog, hval, hr, errorDetailsBody] at h
        | true =>
          cases hl : lookupKey req.params.id ws.store.records with
          | none => simp [storeDog, hval, hr, hl, errorBody] at h
          | some old =>
            simp only [storeDog, hval, hr, hl, if_true, Except.ok.injEq,
              Response.mk.injEq, true_and] at h
            simp only [storeDog, hval, hr, hl, if_true]
            rw [← h]
            exact lookupKey_replaceRecord req.params.id (mergeRecord old members) old
              ws.store.records hl
    · cases hval : validateDoc cast true false dogSchema req.body with
      | error m => simp [storeDog, hval]
      | ok members =>
        cases hr : ws.store.reachable with
        | false => simp [storeDog, hval, hr]
        | true =>
          cases hl : lookupKey req.params.id ws.store.records with
          | none => simp [storeDog, hval, hr, hl]
          | some old => simp [storeDog, hval, hr, hl] at h
    · simp [storeDog, hm, errorDetailsBody]

/-- Witness of C5: `PUT /dogs/<id>` with `{"weight":20}` on a stored record is
answered 200 with the merged record. -/
theorem putDogById_outcomes_witness :
    (putDogById ObjectId.isValid (storeDog strictCast)
        ⟨⟨"000000000000000000000000"⟩, .obj [("weight", .num 20)]⟩
        ⟨⟨[("000000000000000000000000", .obj [("_id", .str "000000000000000000000000"),
            ("name", .str "Bo"), ("age", .num 5), ("gender", .str "female")])], 1, true⟩,
          []⟩).1
      = .ok ⟨200, .obj [("_id", .str "000000000000000000000000"), ("name", .str "Bo"),
          ("age", .num 5), ("gender", .str "female"), ("weight", .num 20)]⟩ :=
  (putDogById_outcomes ObjectId.isValid (storeDog strictCast) strictCast
    ⟨⟨"000000000000000000000000"⟩, .obj [("weight", .num 20)]⟩
    ⟨⟨[("000000000000000000000000", .obj [("_id", .str "000000000000000000000000"),
        ("name", .str "Bo"), ("age", .num 5), ("gender", .str "female")])], 1, true⟩, []⟩
    ⟨⟨[], 0, true⟩, []⟩ (by decide)).1.1 _ _ rfl

/-- C6: Delete on a well-formed identifier.  Over any model: when
`findByIdAndDelete` returns a record the response is 200 with that record as
body, when it returns none the response is 404 `{"error":"Dog not found"}`, and
when it throws the response is 500 `{"error":"Failed to delete dog"}`, which
differs from the not-found response in status and in body.  Over the document
store, when reachable: a record stored under the identifier is returned as it
was and is gone afterwards, and no record gives 404; when unreachable: 500. -/
theorem deleteDogById_outcomes {σ : Type} (isValid : String → Bool) (Dog : Model σ)
    (cast : SchemaType → Json → Option Json) (req : Request) (w : World σ) (ws : World Store)
    (hv : isValid req.params.id = true) :
    ((∀ (record : Json) (s' : σ),
          Dog.findByIdAndDelete req.params.id w.store = (.ok (some record), s') →
          (deleteDogById isValid Dog req w).1 = .ok ⟨200, record⟩)
        ∧ (∀ s' : σ, Dog.findByIdAndDelete req.params.id w.store = (.ok none, s') →
          (deleteDogById isValid Dog req w).1
            = .ok ⟨404, .obj [("error", .str "Dog not found")]⟩)
        ∧ (∀ (err : JsError) (s' : σ),
          Dog.findByIdAndDelete req.params.id w.store = (.error err, s') →
          (deleteDogById isValid Dog req w).1
            = .ok ⟨500, .obj [("error", .str "Failed to delete dog")]⟩))
      ∧ ((500 : Nat) ≠ 404
        ∧ Json.obj [("error", .str "Failed to delete dog")]
          ≠ Json.obj [("error", .str "Dog not found")])
      ∧ ((∀ record : Json, ws.store.reachable = true →
          lookupKey req.params.id ws.store.records = some record →
          (deleteDogById isValid (storeDog cast) req ws).1 = .ok ⟨200, record⟩
            ∧ lookupKey req.params.id
                (deleteDogById isValid (storeDog cast) req ws).2.store.records = none)
        ∧ (ws.store.reachable = true → lookupKey req.params.id ws.store.records = none →
          (deleteDogById isValid (storeDog cast) req ws).1
            = .ok ⟨404, .obj [("error", .str "Dog not found")]⟩)
        ∧ (ws.store.reachable = false →
          (deleteDogById isValid (storeDog cast) req ws).1
            = .ok ⟨500, .obj [("error", .str "Failed to delete dog")]⟩)) := by
  refine ⟨?_, ⟨by decide, by simp⟩, ?_⟩
  · rw [deleteDogById_of_valid isValid Dog req w hv]
    refine ⟨fun record s' h => ?_, fun s' h => ?_, fun err s' h => ?_⟩
    · simp [h]
    · simp [h, errorBody]
    · simp [h, errorBody]
  · rw [deleteDogById_of_valid isValid (storeDog cast) req ws hv]
    refine ⟨fun record hr hl => ?_, fun hr hl => ?_, fun hr => ?_⟩
    · simp [storeDog, hr, hl, lookupKey_eraseRecord]
    · simp [storeDog, hr, hl, errorBody]
    · simp [storeDog, hr, errorBody]

/-- Witness of C6: `DELETE /dogs/<id>` of a stored record is answered 200 with
the record as it was. -/
theorem deleteDogById_outcomes_witness :
    (deleteDogById ObjectId.isValid (storeDog strictCast)
        ⟨⟨"000000000000000000000000"⟩, .null⟩
        ⟨⟨[("000000000000000000000000", .obj [("_id", .str "000000000000000000000000"),
            ("name", .str "Bo"), ("age", .num 5), ("gender", .str "female")])], 1, true⟩,
          []⟩).1
      = .ok ⟨200, .obj [("_id", .str "000000000000000000000000"), ("name", .str "Bo"),
          ("age", .num 5), ("gender", .str "female")]⟩ :=
  ((deleteDogById_outcomes ObjectId.isValid (unreachableDog networkError) strictCast
    ⟨⟨"000000000000000000000000"⟩, .null⟩ ⟨(), []⟩
    ⟨⟨[("000000000000000000000000", .obj [("_id", .str "000000000000000000000000"),
        ("name", .str "Bo"), ("age", .num 5), ("gender", .str "female")])], 1, true⟩, []⟩
    (by decide)).2.2.1 _ rfl rfl).1

/-- A character passes `isHexChar` exactly when it is one of `0-9`, `a-f`,
`A-F`. -/
theorem isHexChar_iff (c : Char) :
    isHexChar c = true ↔ c ∈ "0123456789abcdefABCDEF".toList := by
  constructor
  · intro h
    have hc : c = Char.ofNat c.toNat := (Char.ofNat_toNat c).symm
    simp only [isHexChar, Bool.or_eq_true, Bool.and_eq_true, decide_eq_true_eq,
      Char.le_def] at h
    have h' : (48 ≤ c.toNat ∧ c.toNat ≤ 57) ∨ (97 ≤ c.toNat ∧ c.toNat ≤ 102)
        ∨ (65 ≤ c.toNat ∧ c.toNat ≤ 70) := by
      rcases h with (⟨h1, h2⟩ | ⟨h1, h2⟩) | ⟨h1, h2⟩
      · exact Or.inl ⟨h1, h2⟩
      · exact Or.inr (Or.inl ⟨h1, h2⟩)
      · exact Or.inr (Or.inr ⟨h1, h2⟩)
    generalize c.toNat = n at hc h'
    subst hc
    rcases h' with ⟨h1, h2⟩ | ⟨h1, h2⟩ | ⟨h1, h2⟩ <;> interval_cases n <;> decide
  · intro h
    have hmem : c ∈ ['0', '1', '2', '3', '4', '5', '6', '7', '8', '9', 'a', 'b', 'c', 'd',
        'e', 'f', 'A', 'B', 'C', 'D', 'E', 'F'] := h
    simp only [List.mem_cons, List.mem_singleton, List.not_mem_nil, or_false] at hmem
    rcases hmem with h | h | h | h | h | h | h | h | h | h | h | h | h | h | h | h | h | h
      | h | h | h | h <;> subst h <;> decide

/-- The modelled identifier check accepts exactly the 24-character hexadecimal
strings. -/
theorem ObjectId.isValid_iff (id : String) : ObjectId.isValid id = true ↔ IsHex24 id := by
  simp [ObjectId.isValid, IsHex24, List.all_eq_true, isHexChar_iff]

/-- C10: with the identifier check of the reference store, a path identifier
passes exactly when it is a 24-character hexadecimal string.  Every other
identifier is answered 400 `{"error":"Invalid ID format"}` by Get-by-id, Update
and Delete with no store call; every 24-character hexadecimal identifier passes,
so each handler goes on to its one store call. -/
theorem id_check_accepts_exactly_hex24 {σ : Type} (Dog : Model σ) (req : Request)
    (w : World σ) :
    (ObjectId.isValid req.params.id = true ↔ IsHex24 req.params.id)
      ∧ (¬ IsHex24 req.params.id →
        getDogById ObjectId.isValid Dog req w
            = (.ok ⟨400, .obj [("error", .str "Invalid ID format")]⟩, w)
          ∧ putDogById ObjectId.isValid Dog req w
            = (.ok ⟨400, .obj [("error", .str "Invalid ID format")]⟩, w)
          ∧ deleteDogById ObjectId.isValid Dog req w
            = (.ok ⟨400, .obj [("error", .str "Invalid ID format")]⟩, w))
      ∧ (IsHex24 req.params.id →
        (getDogById ObjectId.isValid Dog req w).2.calls
            = w.calls ++ [.findById req.params.id]
          ∧ (putDogById ObjectId.isValid Dog req w).2.calls
            = w.calls ++ [.findByIdAndUpdate req.params.id req.body ⟨true, true⟩]
          ∧ (deleteDogById ObjectId.isValid Dog req w).2.calls
            = w.calls ++ [.findByIdAndDelete req.params.id]) := by
  refine ⟨ObjectId.isValid_iff _, fun h => ?_, fun h => ?_⟩
  · have hv : ObjectId.isValid req.params.id = false := by
      cases hb : ObjectId.isValid req.params.id with
      | false => rfl
      | true => exact absurd ((ObjectId.isValid_iff _).mp hb) h
    simpa [errorBody] using handlers_of_invalid ObjectId.isValid Dog req w hv
  · have hv : ObjectId.isValid req.params.id = true := (ObjectId.isValid_iff _).mpr h
    rw [getDogById_of_valid _ Dog req w hv, putDogById_of_valid _ Dog req w hv,
      deleteDogById_of_valid _ Dog req w hv]
    exact ⟨rfl, rfl, rfl⟩

/-- Witness of C10: `not-an-id` is rejected without a store call, and a
lower-case 24-digit hexadecimal identifier reaches `findById`. -/
theorem id_check_accepts_exactly_hex24_witness :
    getDogById ObjectId.isValid (unreachableDog networkError) ⟨⟨"not-an-id"⟩, .null⟩ ⟨(), []⟩
        = (.ok ⟨400, .obj [("error", .str "Invalid ID format")]⟩, ⟨(), []⟩)
      ∧ (getDogById ObjectId.isValid (unreachableDog networkError)
          ⟨⟨"65a1b2c3d4e5f60718293a4b"⟩, .null⟩ ⟨(), []⟩).2.calls
        = [.findById "65a1b2c3d4e5f60718293a4b"] :=
  ⟨((id_check_accepts_exactly_hex24 (unreachableDog networkError) ⟨⟨"not-an-id"⟩, .null⟩
      ⟨(), []⟩).2.1 (fun h => absurd h.1 (by decide))).1,
    ((id_check_accepts_exactly_hex24 (unreachableDog networkError)
      ⟨⟨"65a1b2c3d4e5f60718293a4b"⟩, .null⟩ ⟨(), []⟩).2.2
      ((ObjectId.isValid_iff _).mp (by decide))).1⟩

end AdopDog
